import Mathlib

/-!
Verification model of the subprocess-orchestration layer of
`src/src-tauri/src/lib.rs` (functions `send_to_claude`, `run_shell_command`,
`kill_shell_process`, `start_service`, `stop_service`, `get_running_services`).

The Rust code is shallowly embedded: JSON values from `serde_json` become the
inductive `Json`; the stateful stdout-processing loop of `send_to_claude`
becomes the pure step function `processLine` folded by `processLines`; the
three global registries (`RUNNING_PROCESSES`, `RUNNING_SERVICES`,
`KILL_SIGNALS`) become the record `RegistryState` over association lists and a
string set; one iteration of each poll loop becomes an explicit tick function.
`u64` arithmetic is modelled on `Nat` with an explicit `% 2 ^ 64` where the
source adds two `u64` values.  Floating-point JSON numbers are outside the
model (no modelled code path reads one); JSON numbers are carried as `Int`,
matching `serde_json`'s `as_u64` view used by the source.
-/

/-- Association-list lookup, first matching key, mirroring `HashMap::get`. -/
def assocLookup {α : Type} : List (String × α) → String → Option α
  | [], _ => none
  | p :: m, k => if p.1 = k then some p.2 else assocLookup m k

/-- Association-list removal of a key, mirroring `HashMap::remove`. -/
def assocErase {α : Type} : List (String × α) → String → List (String × α)
  | [], _ => []
  | p :: m, k => if p.1 = k then assocErase m k else p :: assocErase m k

/-- Association-list insert-or-replace, mirroring `HashMap::insert`. -/
def assocInsert {α : Type} : List (String × α) → String → α → List (String × α)
  | [], k, v => [(k, v)]
  | p :: m, k, v => if p.1 = k then (k, v) :: m else p :: assocInsert m k v

/-- Set membership over a string list, mirroring `HashSet::contains`. -/
def setContains : List String → String → Bool
  | [], _ => false
  | x :: s, p => if x = p then true else setContains s p

/-- Set insertion, mirroring `HashSet::insert` (no duplicate is added). -/
def setInsert (s : List String) (p : String) : List String :=
  if setContains s p then s else s ++ [p]

/-- Set removal, mirroring `HashSet::remove`. -/
def setRemove : List String → String → List String
  | [], _ => []
  | x :: s, p => if x = p then setRemove s p else x :: setRemove s p

/-- A `serde_json::Value`.  Numbers are the `as_u64`-visible integers. -/
inductive Json where
  | null : Json
  | bool : Bool → Json
  | num : Int → Json
  | str : String → Json
  | arr : List Json → Json
  | obj : List (String × Json) → Json

/-- `Value::get(key)`: object member lookup, `None` on non-objects. -/
def Json.get : Json → String → Option Json
  | Json.obj kvs, k => assocLookup kvs k
  | _, _ => none

/-- `Value::as_str`. -/
def Json.as_str : Json → Option String
  | Json.str s => some s
  | _ => none

/-- `Value::as_bool`. -/
def Json.as_bool : Json → Option Bool
  | Json.bool b => some b
  | _ => none

/-- `Value::as_array`. -/
def Json.as_array : Json → Option (List Json)
  | Json.arr xs => some xs
  | _ => none

/-- `Value::as_u64`: defined exactly on integers representable in 64 bits. -/
def Json.as_u64 : Json → Option Nat
  | Json.num n => if 0 ≤ n ∧ n < 2 ^ 64 then some n.toNat else none
  | _ => none

/-- `needle.is_prefix_of hay` on character lists. -/
def startsWithChars : List Char → List Char → Bool
  | [], _ => true
  | _ :: _, [] => false
  | c :: n, d :: h => if c = d then startsWithChars n h else false

/-- Substring search on character lists (`str::contains`). -/
def infixChars (n : List Char) : List Char → Bool
  | [] => startsWithChars n []
  | d :: h => if startsWithChars n (d :: h) then true else infixChars n h

/-- `msg.to_lowercase().contains("error")` from the `system` frame branch. -/
def containsLowerError (m : String) : Bool :=
  infixChars "error".data m.toLower.data

/-- The `ClaudeResponse` event payload emitted on topic
`claude-response-<conversationId>`. -/
structure ClaudeResponse where
  content : String
  is_complete : Bool
  thinking : Option String
  tokens_used : Option Nat
deriving DecidableEq

/-- The mutable locals of `send_to_claude`'s stdout loop. -/
structure LoopState where
  full_response : String
  total_tokens : Nat
  result_session_id : Option String
  error_message : Option String
deriving DecidableEq

/-- Loop-local state before the first stdout line is read. -/
def initState : LoopState :=
  { full_response := "", total_tokens := 0, result_session_id := none, error_message := none }

/-- One content item of an `assistant` frame: the body of the inner
`for item in content` loop (lib.rs 298-335).  Returns the updated
`full_response` and the events emitted for this item. -/
def assistantItemStep (full : String) (item : Json) : String × List ClaudeResponse :=
  match item.get "type" >>= Json.as_str with
  | some t =>
    if t = "text" then
      match item.get "text" >>= Json.as_str with
      | some txt =>
          (full ++ txt,
           [{ content := txt, is_complete := false, thinking := none, tokens_used := none }])
      | none => (full, [])
    else if t = "thinking" then
      match item.get "thinking" >>= Json.as_str with
      | some th =>
          (full,
           [{ content := "", is_complete := false, thinking := some th, tokens_used := none }])
      | none => (full, [])
    else if t = "tool_use" then
      (full,
       [{ content := "", is_complete := false,
          thinking := some ("Using " ++ ((item.get "name" >>= Json.as_str).getD "tool") ++ "..."),
          tokens_used := none }])
    else (full, [])
  | none => (full, [])

/-- The whole `for item in content` loop over an `assistant` frame's content
array, in array order. -/
def processContent (full : String) : List Json → String × List ClaudeResponse
  | [] => (full, [])
  | item :: rest =>
    ((processContent (assistantItemStep full item).1 rest).1,
     (assistantItemStep full item).2 ++ (processContent (assistantItemStep full item).1 rest).2)

/-- Lines 342-351 of the `result` frame branch: `is_error` check plus
error/result text handling. -/
def resultTextStep (st : LoopState) (json : Json) : LoopState :=
  let is_error := ((json.get "is_error" >>= Json.as_bool)).getD false
  match json.get "result" >>= Json.as_str with
  | some r =>
      if is_error then { st with error_message := some r }
      else if st.full_response.isEmpty then { st with full_response := r }
      else st
  | none => st

/-- Lines 352-355: session-id extraction. -/
def resultSessionStep (st : LoopState) (json : Json) : LoopState :=
  match json.get "session_id" >>= Json.as_str with
  | some sid => { st with result_session_id := some sid }
  | none => st

/-- Lines 356-366: token usage from the `usage` object (explicit total, else
input+output sum). -/
def resultUsageStep (st : LoopState) (json : Json) : LoopState :=
  match json.get "usage" with
  | some usage =>
    match usage.get "total_tokens" >>= Json.as_u64 with
    | some t => { st with total_tokens := t }
    | none =>
        { st with total_tokens :=
            (((usage.get "input_tokens" >>= Json.as_u64)).getD 0 +
             ((usage.get "output_tokens" >>= Json.as_u64)).getD 0) % 2 ^ 64 }
  | none => st

/-- Lines 367-374: fallback to the `stats` object when the total is zero. -/
def resultStatsStep (st : LoopState) (json : Json) : LoopState :=
  if st.total_tokens = 0 then
    match json.get "stats" with
    | some stats =>
        { st with total_tokens :=
            (((stats.get "input_tokens" >>= Json.as_u64)).getD 0 +
             ((stats.get "output_tokens" >>= Json.as_u64)).getD 0) % 2 ^ 64 }
    | none => st
  else st

/-- The `result` frame branch (lib.rs 340-375), in source statement order.
Emits nothing. -/
def resultStep (st : LoopState) (json : Json) : LoopState :=
  resultStatsStep (resultUsageStep (resultSessionStep (resultTextStep st json) json) json) json

/-- `json.get("type").and_then(as_str).unwrap_or("")` (lib.rs 272). -/
def frameType (json : Json) : String :=
  (json.get "type" >>= Json.as_str).getD ""

/-- One iteration of the stdout loop of `send_to_claude` (lib.rs 269-379) on
one line.  `none` stands for a line `serde_json::from_str` rejects, which the
source skips.  Returns the new loop state and the events emitted, in order. -/
def processLine (st : LoopState) (line : Option Json) : LoopState × List ClaudeResponse :=
  match line with
  | none => (st, [])
  | some json =>
    if frameType json = "error" then
      match json.get "error" with
      | some err =>
          let msg := ((err.get "message" >>= Json.as_str)).getD ((Json.as_str err).getD "Unknown error")
          ({ st with error_message := some msg }, [])
      | none =>
          match json.get "message" >>= Json.as_str with
          | some m => ({ st with error_message := some m }, [])
          | none => (st, [])
    else if frameType json = "system" then
      match json.get "message" >>= Json.as_str with
      | some m =>
          if containsLowerError m then ({ st with error_message := some m }, []) else (st, [])
      | none => (st, [])
    else if frameType json = "assistant" then
      match json.get "message" with
      | some message =>
        match message.get "content" >>= Json.as_array with
        | some content =>
            ({ st with full_response := (processContent st.full_response content).1 },
             (processContent st.full_response content).2)
        | none => (st, [])
      | none => (st, [])
    else if frameType json = "result" then
      (resultStep st json, [])
    else (st, [])

/-- The full stdout loop over the sequence of lines read, in read order. -/
def processLines (st : LoopState) : List (Option Json) → LoopState × List ClaudeResponse
  | [] => (st, [])
  | l :: ls =>
    ((processLines (processLine st l).1 ls).1,
     (processLine st l).2 ++ (processLines (processLine st l).1 ls).2)

/-- Text of one content item as the spec counts it: the `text` field of a
`text`-typed item, empty otherwise. -/
def itemTextStr (item : Json) : String :=
  match item.get "type" >>= Json.as_str with
  | some t =>
      if t = "text" then
        match item.get "text" >>= Json.as_str with
        | some txt => txt
        | none => ""
      else ""
  | none => ""

/-- Concatenated text of a content array, in order. -/
def contentTexts : List Json → String
  | [] => ""
  | item :: rest => itemTextStr item ++ contentTexts rest

/-- Concatenated `text` content of one line, nonempty only for `assistant`
frames. -/
def lineTexts : Option Json → String
  | none => ""
  | some json =>
    if frameType json = "assistant" then
      match json.get "message" with
      | some message =>
        match message.get "content" >>= Json.as_array with
        | some content => contentTexts content
        | none => ""
      | none => ""
    else ""

/-- Concatenation, in stream order, of the `text` content items of all
`assistant` frames of a line sequence (the quantity the spec compares the
aggregate against). -/
def concatTexts : List (Option Json) → String
  | [] => ""
  | l :: ls => lineTexts l ++ concatTexts ls

/-- A line holding a non-error `result` frame that carries a `result` string:
the only frame shape whose processing can write to `full_response` outside the
`assistant` branch (lib.rs 345-350). -/
def adoptsResult : Option Json → Bool
  | none => false
  | some json =>
    decide (frameType json = "result")
    && !(((json.get "is_error" >>= Json.as_bool)).getD false)
    && ((json.get "result" >>= Json.as_str).isSome)

/-- The `ClaudeResult` returned by a successful `send_to_claude`. -/
structure ClaudeResult where
  response : String
  session_id : Option String
deriving DecidableEq

/-- Turn resolution after stdout EOF and a successfully observed exit status
(lib.rs 395-421): failure precedence, the terminal event, and the final value.
`status_str` is the `Display` rendering of the exit status. -/
def resolveTurn (status_success : Bool) (status_str stderr_output : String)
    (st : LoopState) : Except String (List ClaudeResponse × ClaudeResult) :=
  if !status_success then
    Except.error
      (match st.error_message with
       | some err => err
       | none =>
         if !stderr_output.isEmpty then "Claude error: " ++ stderr_output
         else "Claude exited with status: " ++ status_str)
  else
    match st.error_message with
    | some err => Except.error err
    | none =>
      Except.ok
        ([{ content := "", is_complete := true, thinking := none,
            tokens_used := if st.total_tokens > 0 then some st.total_tokens else none }],
         { response := st.full_response.trim, session_id := st.result_session_id })

/-- The inputs that decide the tail of one `send_to_claude` turn once the child
is spawned: the parsed stdout lines, whether `next_line` ended with an `Err`
(lib.rs 269, the `?`), the result of `child.wait()` (lib.rs 381, the `?`;
`ok b` carries `status.success()`), the status rendering, the drained stderr,
and whether a temp MCP config file was written earlier. -/
structure TurnInput where
  lines : List (Option Json)
  read_error : Option String
  wait_result : Except String Bool
  status_str : String
  stderr_output : String
  temp_written : Bool

/-- The tail of `send_to_claude` (lib.rs 269-421): process the stream, then
either return early on a read or wait error, or run cleanup and resolution.
The second component records whether the `remove_file` at lib.rs 391-393 was
reached (it is skipped by the two `?` early returns). -/
def send_to_claude_run (inp : TurnInput) :
    Except String (List ClaudeResponse × ClaudeResult) × Bool :=
  match inp.read_error with
  | some e => (Except.error e, false)
  | none =>
    match inp.wait_result with
    | Except.error e => (Except.error e, false)
    | Except.ok ok =>
        (resolveTurn ok inp.status_str inp.stderr_output (processLines initState inp.lines).1,
         inp.temp_written)

/-- The temp MCP config file was written for this turn and the turn returned
without reaching the `remove_file` cleanup. -/
def tempRemains (inp : TurnInput) : Bool :=
  inp.temp_written && !(send_to_claude_run inp).2

/-- The `IntegrationConfig` record deserialized from the frontend. -/
structure IntegrationConfig where
  id : String
  name : String
  integration_type : String
  server_command : Option String
  server_args : Option (List String)
  env_variable : Option String
  api_key : Option String

/-- One `mcpServers` entry. -/
structure McpServerConfig where
  command : String
  args : List String

/-- The `mcp_servers` map built from `mcp`-typed integrations that carry both
a command and an argument list (lib.rs 184-207), keyed by integration id. -/
def collect_mcp_servers (ints : List IntegrationConfig) : List (String × McpServerConfig) :=
  ints.foldl
    (fun m int =>
      if int.integration_type = "mcp" then
        match int.server_command, int.server_args with
        | some c, some a => assocInsert m int.id { command := c, args := a }
        | _, _ => m
      else m)
    []

/-- Whether at least one `api-key` integration with an env-variable name and a
non-empty key fired (lib.rs 196-204). -/
def has_api_key_integrations (ints : List IntegrationConfig) : Bool :=
  ints.any
    (fun int =>
      int.integration_type = "api-key"
      && (match int.env_variable, int.api_key with
          | some _, some k => !k.isEmpty
          | _, _ => false))

/-- The serialized MCP config document as a JSON value:
`{"mcpServers": {id: {"command": c, "args": a}, ...}}`. -/
def mcp_config_json (servers : List (String × McpServerConfig)) : Json :=
  Json.obj
    [("mcpServers",
      Json.obj (servers.map
        (fun p => (p.1, Json.obj [("command", Json.str p.2.command),
                                  ("args", Json.arr (p.2.args.map Json.str))]))))]

/-- Whether a temp MCP config file is written for the given integrations, and
with what path and document (lib.rs 182-228).  `sys_temp` stands for
`std::env::temp_dir()`; `PathBuf::join` is path-separator concatenation. -/
def mcp_config_decision (integrations : Option (List IntegrationConfig))
    (working_directory : Option String) (sys_temp conversation_id : String) :
    Option (String × Json) :=
  match integrations with
  | none => none
  | some ints =>
    let servers := collect_mcp_servers ints
    if !servers.isEmpty || has_api_key_integrations ints then
      some ((working_directory.getD sys_temp) ++ "/.claude-quest-mcp-" ++ conversation_id ++ ".json",
            mcp_config_json servers)
    else none

/-- The inline `--settings` JSON literal (lib.rs 232). -/
def settingsJson : String :=
  "\x7b\"permissions\":\x7b\"allow\":[\"Bash(*)\",\"Read(*)\",\"Write(*)\",\"Edit(*)\",\"WebFetch(*)\"],\"deny\":[]\x7d\x7d"

/-- The argument vector passed to the `claude` child process, in the order the
source pushes arguments (lib.rs 161-241). -/
def build_claude_args (session_id system_prompt : Option String)
    (mcp_config_path : Option String) (message : String) : List String :=
  (match session_id with
   | some sid => ["--resume", sid]
   | none => []) ++
  (match system_prompt with
   | some p => ["--system-prompt", p]
   | none => []) ++
  (match mcp_config_path with
   | some p => ["--mcp-config", p]
   | none => []) ++
  ["--print", "--output-format", "stream-json", "--verbose",
   "--permission-mode", "bypassPermissions", "--settings", settingsJson, message]

/-- The three global registries.  Child handles are opaque and modelled by
`Nat` tokens. -/
structure RegistryState where
  running_processes : List (String × Nat)
  running_services : List (String × Nat)
  kill_signals : List String
deriving DecidableEq

/-- `kill_shell_process` (lib.rs 534-540): record the kill request, return
`Ok(true)`. -/
def kill_shell_process (process_id : String) (st : RegistryState) :
    RegistryState × Except String Bool :=
  ({ st with kill_signals := setInsert st.kill_signals process_id }, Except.ok true)

/-- Synchronous result of a shell job. -/
structure ShellOutput where
  stdout : String
  stderr : String
  exit_code : Int
deriving DecidableEq

/-- Kill side effects of the poll loop, in issue order. -/
inductive KillAction where
  | killpg : Nat → KillAction
  | killChild : Nat → KillAction
deriving DecidableEq

/-- What `try_wait` reports on one poll of a child. -/
inductive ChildStatus where
  | running : ChildStatus
  | exited : Option Int → ChildStatus
  | pollErr : String → ChildStatus
deriving DecidableEq

/-- One iteration of `run_shell_command`'s poll loop (lib.rs 469-531).
`child_pid` is the pid captured at spawn; `wait_output` is what
`wait_with_output` would deliver (stdout, stderr, `status.code()`).  The
result is the new registry, the kill actions issued, and `some` final answer
or `none` to keep looping. -/
def run_shell_command_tick (process_id : String) (child_pid : Option Nat)
    (status : ChildStatus) (wait_output : Except String (String × String × Option Int))
    (st : RegistryState) :
    RegistryState × List KillAction × Option (Except String ShellOutput) :=
  if setContains st.kill_signals process_id then
    match assocLookup st.running_processes process_id with
    | some h =>
        ({ st with kill_signals := setRemove st.kill_signals process_id,
                   running_processes := assocErase st.running_processes process_id },
         (match child_pid with
          | some pid => [KillAction.killpg pid]
          | none => []) ++ [KillAction.killChild h],
         some (Except.ok { stdout := "", stderr := "^C", exit_code := 130 }))
    | none =>
        ({ st with kill_signals := setRemove st.kill_signals process_id },
         [],
         some (Except.ok { stdout := "", stderr := "^C", exit_code := 130 }))
  else
    match assocLookup st.running_processes process_id with
    | some _ =>
      match status with
      | ChildStatus.exited _ =>
        (match wait_output with
         | Except.error e =>
             ({ st with running_processes := assocErase st.running_processes process_id },
              [], some (Except.error ("Failed to get output: " ++ e)))
         | Except.ok out =>
             ({ st with running_processes := assocErase st.running_processes process_id },
              [], some (Except.ok { stdout := out.1, stderr := out.2.1,
                                    exit_code := out.2.2.getD (-1) })))
      | ChildStatus.running => (st, [], none)
      | ChildStatus.pollErr e =>
          ({ st with running_processes := assocErase st.running_processes process_id },
           [], some (Except.error ("Error checking process: " ++ e)))
    | none =>
        (st, [], some (Except.ok { stdout := "", stderr := "Process terminated", exit_code := -1 }))

/-- `start_service` up to and including registration (lib.rs 549-575):
`handle` is the spawned child's registry token; the third component records
whether the spawn line was reached. -/
def start_service (service_id : String) (handle : Nat) (st : RegistryState) :
    RegistryState × Except String Unit × Bool :=
  if (assocLookup st.running_services service_id).isSome then
    (st, Except.error "Service is already running", false)
  else
    ({ st with running_services := assocInsert st.running_services service_id handle },
     Except.ok (), true)

/-- `get_running_services` (lib.rs 673-677): the registered service ids. -/
def get_running_services (st : RegistryState) : List String :=
  st.running_services.map Prod.fst

/-- A `ServiceOutput` event on topic `service-output-<serviceId>`. -/
structure ServiceOutput where
  service_id : String
  output : String
  is_stderr : Bool
  is_complete : Bool
  exit_code : Option Int
deriving DecidableEq

/-- One iteration of the exit-watcher loop spawned by `start_service`
(lib.rs 619-650): new registry, events emitted, and whether the loop
continues. -/
def service_wait_tick (sid : String) (status : ChildStatus) (st : RegistryState) :
    RegistryState × List ServiceOutput × Bool :=
  match assocLookup st.running_services sid with
  | some _ =>
    match status with
    | ChildStatus.exited code =>
        ({ st with running_services := assocErase st.running_services sid },
         [{ service_id := sid, output := "", is_stderr := false,
            is_complete := true, exit_code := code }],
         false)
    | ChildStatus.running => (st, [], true)
    | ChildStatus.pollErr _ =>
        ({ st with running_services := assocErase st.running_services sid }, [], false)
  | none => (st, [], false)

/-- The exit-watcher loop run against a sequence of poll observations; it
stops as soon as a tick does not continue. -/
def service_wait_loop (sid : String) : List ChildStatus → RegistryState → RegistryState × List ServiceOutput
  | [], st => (st, [])
  | s :: rest, st =>
    if (service_wait_tick sid s st).2.2 then
      ((service_wait_loop sid rest (service_wait_tick sid s st).1).1,
       (service_wait_tick sid s st).2.1 ++ (service_wait_loop sid rest (service_wait_tick sid s st).1).2)
    else ((service_wait_tick sid s st).1, (service_wait_tick sid s st).2.1)

/-- An atomic step of an operation as seen by the lock discipline: mutex
acquisition/release (`.lock().await` / guard drop), an `await` that performs
child-process I/O, a synchronous syscall, a plain map access, or the poll
sleep. -/
inductive TraceStep where
  | acquire : String → TraceStep
  | release : String → TraceStep
  | childAwait : String → TraceStep
  | syscall : String → TraceStep
  | mapOp : String → TraceStep
  | sleep : TraceStep
deriving DecidableEq

/-- Whether some child-process-I/O `await` in the trace happens while at least
one registry lock is held. -/
def awaitsUnderLock (held : List String) : List TraceStep → Bool
  | [] => false
  | TraceStep.acquire m :: r => awaitsUnderLock (m :: held) r
  | TraceStep.release m :: r => awaitsUnderLock (held.erase m) r
  | TraceStep.childAwait _ :: r => !held.isEmpty || awaitsUnderLock held r
  | TraceStep.syscall _ :: r => awaitsUnderLock held r
  | TraceStep.mapOp _ :: r => awaitsUnderLock held r
  | TraceStep.sleep :: r => awaitsUnderLock held r

/-- Lock/await trace of `kill_shell_process` (lib.rs 534-540). -/
def kill_shell_process_trace : List TraceStep :=
  [TraceStep.acquire "KILL_SIGNALS", TraceStep.mapOp "signals.insert",
   TraceStep.release "KILL_SIGNALS"]

/-- Lock/await trace of `get_running_services` (lib.rs 673-677). -/
def get_running_services_trace : List TraceStep :=
  [TraceStep.acquire "RUNNING_SERVICES", TraceStep.mapOp "keys.cloned.collect",
   TraceStep.release "RUNNING_SERVICES"]

/-- Lock/await trace of `stop_service` (lib.rs 655-671): the `services` guard
is scoped to the whole function body, so on the found branch
`child.kill().await` runs before the guard drops. -/
def stop_service_trace (found : Bool) : List TraceStep :=
  if found then
    [TraceStep.acquire "RUNNING_SERVICES", TraceStep.mapOp "services.remove",
     TraceStep.syscall "killpg SIGTERM", TraceStep.childAwait "child.kill().await",
     TraceStep.release "RUNNING_SERVICES"]
  else
    [TraceStep.acquire "RUNNING_SERVICES", TraceStep.mapOp "services.remove",
     TraceStep.release "RUNNING_SERVICES"]

/-- Lock/await trace of the two-lock registration prefix of `start_service`
(lib.rs 550-575): the duplicate check and, when it passes, spawn plus
insertion; each lock scope is a plain block with no `await` inside. -/
def start_service_trace (already_running : Bool) : List TraceStep :=
  if already_running then
    [TraceStep.acquire "RUNNING_SERVICES", TraceStep.mapOp "contains_key",
     TraceStep.release "RUNNING_SERVICES"]
  else
    [TraceStep.acquire "RUNNING_SERVICES", TraceStep.mapOp "contains_key",
     TraceStep.release "RUNNING_SERVICES", TraceStep.syscall "spawn",
     TraceStep.acquire "RUNNING_SERVICES", TraceStep.mapOp "services.insert",
     TraceStep.release "RUNNING_SERVICES"]

/-- The branch taken by one iteration of `run_shell_command`'s poll loop. -/
inductive ShellTickBranch where
  | killSignalHandle : ShellTickBranch
  | killSignalNoHandle : ShellTickBranch
  | exitedBranch : ShellTickBranch
  | stillRunning : ShellTickBranch
  | pollErrBranch : ShellTickBranch
  | handleMissing : ShellTickBranch
deriving DecidableEq

/-- Lock/await trace of one iteration of `run_shell_command`'s poll loop
(lib.rs 469-531), per branch.  In the kill branch the `signals` guard block
(469-492) encloses the `processes` guard and `child.kill().await`; in the
completion branch the `processes` guard block (495-527) encloses
`wait_with_output().await`; the sleep runs outside both blocks. -/
def run_shell_command_tick_trace : ShellTickBranch → List TraceStep
  | ShellTickBranch.killSignalHandle =>
      [TraceStep.acquire "KILL_SIGNALS", TraceStep.mapOp "signals.remove",
       TraceStep.acquire "RUNNING_PROCESSES", TraceStep.mapOp "processes.remove",
       TraceStep.syscall "killpg SIGTERM", TraceStep.childAwait "child.kill().await",
       TraceStep.release "RUNNING_PROCESSES", TraceStep.release "KILL_SIGNALS"]
  | ShellTickBranch.killSignalNoHandle =>
      [TraceStep.acquire "KILL_SIGNALS", TraceStep.mapOp "signals.remove",
       TraceStep.acquire "RUNNING_PROCESSES", TraceStep.mapOp "processes.remove",
       TraceStep.release "RUNNING_PROCESSES", TraceStep.release "KILL_SIGNALS"]
  | ShellTickBranch.exitedBranch =>
      [TraceStep.acquire "KILL_SIGNALS", TraceStep.mapOp "signals.remove",
       TraceStep.release "KILL_SIGNALS", TraceStep.acquire "RUNNING_PROCESSES",
       TraceStep.mapOp "processes.get_mut", TraceStep.syscall "try_wait",
       TraceStep.mapOp "processes.remove", TraceStep.childAwait "wait_with_output().await",
       TraceStep.release "RUNNING_PROCESSES"]
  | ShellTickBranch.stillRunning =>
      [TraceStep.acquire "KILL_SIGNALS", TraceStep.mapOp "signals.remove",
       TraceStep.release "KILL_SIGNALS", TraceStep.acquire "RUNNING_PROCESSES",
       TraceStep.mapOp "processes.get_mut", TraceStep.syscall "try_wait",
       TraceStep.release "RUNNING_PROCESSES", TraceStep.sleep]
  | ShellTickBranch.pollErrBranch =>
      [TraceStep.acquire "KILL_SIGNALS", TraceStep.mapOp "signals.remove",
       TraceStep.release "KILL_SIGNALS", TraceStep.acquire "RUNNING_PROCESSES",
       TraceStep.mapOp "processes.get_mut", TraceStep.syscall "try_wait",
       TraceStep.mapOp "processes.remove", TraceStep.release "RUNNING_PROCESSES"]
  | ShellTickBranch.handleMissing =>
      [TraceStep.acquire "KILL_SIGNALS", TraceStep.mapOp "signals.remove",
       TraceStep.release "KILL_SIGNALS", TraceStep.acquire "RUNNING_PROCESSES",
       TraceStep.mapOp "processes.get_mut", TraceStep.release "RUNNING_PROCESSES"]

/-- The branch taken by one iteration of the service exit watcher. -/
inductive WatcherBranch where
  | exitedW : WatcherBranch
  | runningW : WatcherBranch
  | errW : WatcherBranch
  | missingW : WatcherBranch
deriving DecidableEq

/-- Lock/await trace of one iteration of the exit watcher (lib.rs 619-650);
`app.emit` is a synchronous call, and the sleep precedes the lock. -/
def service_wait_tick_trace : WatcherBranch → List TraceStep
  | WatcherBranch.exitedW =>
      [TraceStep.sleep, TraceStep.acquire "RUNNING_SERVICES", TraceStep.mapOp "services.get_mut",
       TraceStep.syscall "try_wait", TraceStep.mapOp "services.remove",
       TraceStep.syscall "app.emit", TraceStep.release "RUNNING_SERVICES"]
  | WatcherBranch.runningW =>
      [TraceStep.sleep, TraceStep.acquire "RUNNING_SERVICES", TraceStep.mapOp "services.get_mut",
       TraceStep.syscall "try_wait", TraceStep.release "RUNNING_SERVICES"]
  | WatcherBranch.errW =>
      [TraceStep.sleep, TraceStep.acquire "RUNNING_SERVICES", TraceStep.mapOp "services.get_mut",
       TraceStep.syscall "try_wait", TraceStep.mapOp "services.remove",
       TraceStep.release "RUNNING_SERVICES"]
  | WatcherBranch.missingW =>
      [TraceStep.sleep, TraceStep.acquire "RUNNING_SERVICES", TraceStep.mapOp "services.get_mut",
       TraceStep.release "RUNNING_SERVICES"]

/-- A non-error `result` frame carrying result text `"foo"`. -/
def resultFooFrame : Json :=
  Json.obj [("type", Json.str "result"), ("result", Json.str "foo")]

/-- A `result` frame with `is_error = true` and result text `"boom"`. -/
def boomResultFrame : Json :=
  Json.obj [("type", Json.str "result"), ("is_error", Json.bool true),
            ("result", Json.str "boom")]

/-- An `assistant` frame with one `text` content item `"hi"`. -/
def hiAssistantFrame : Json :=
  Json.obj [("type", Json.str "assistant"),
            ("message", Json.obj [("content",
              Json.arr [Json.obj [("type", Json.str "text"), ("text", Json.str "hi")]])])]

/-- The example `mcp` integration from the spec's testable property:
`{type:"mcp", id:"x", command:"foo", args:["a"]}`. -/
def exampleMcpIntegration : IntegrationConfig :=
  { id := "x", name := "x", integration_type := "mcp",
    server_command := some "foo", server_args := some ["a"],
    env_variable := none, api_key := none }

/-- The registry state with job `"p"` (handle 5) registered and a pending kill
request for `"p"`. -/
def staleState : RegistryState :=
  { running_processes := [("p", 5)], running_services := [], kill_signals := ["p"] }

/-- The registry state with only service `"svc"` (handle 7) registered. -/
def svcState7 : RegistryState :=
  { running_processes := [], running_services := [("svc", 7)], kill_signals := [] }

lemma assocLookup_erase_self {α : Type} (m : List (String × α)) (k : String) :
    assocLookup (assocErase m k) k = none := by
  induction m with
  | nil => rfl
  | cons p m ih =>
    by_cases hp : p.1 = k
    · simpa [assocErase, hp] using ih
    · simp [assocErase, assocLookup, hp, ih]

lemma assocLookup_isSome_of_mem {α : Type} (m : List (String × α)) (k : String)
    (h : k ∈ m.map Prod.fst) : (assocLookup m k).isSome = true := by
  induction m with
  | nil => simp at h
  | cons p m ih =>
    have h2 : k = p.1 ∨ k ∈ m.map Prod.fst := by simpa [List.mem_cons] using h
    by_cases hp : p.1 = k
    · simp [assocLookup, hp]
    · simp [assocLookup, hp]
      rcases h2 with h1 | h1
      · exact absurd h1.symm hp
      · exact ih h1

lemma setContains_remove_self (s : List String) (p : String) :
    setContains (setRemove s p) p = false := by
  induction s with
  | nil => rfl
  | cons x s ih =>
    by_cases hx : x = p
    · simpa [setRemove, hx] using ih
    · simp [setRemove, setContains, hx, ih]

lemma setContains_append (s t : List String) (q : String) :
    setContains (s ++ t) q = (setContains s q || setContains t q) := by
  induction s with
  | nil => simp [setContains]
  | cons x s ih =>
    by_cases hx : x = q <;> simp [setContains, hx, ih]

lemma setContains_insert_self (s : List String) (p : String) :
    setContains (setInsert s p) p = true := by
  unfold setInsert
  by_cases hc : setContains s p
  · simp [hc]
  · simp [hc, setContains_append, setContains]

lemma setContains_insert (s : List String) (p q : String) :
    setContains (setInsert s p) q = (setContains s q || decide (q = p)) := by
  unfold setInsert
  by_cases hq : q = p
  · subst hq
    by_cases hc : setContains s q
    · simp [hc]
    · simp [hc, setContains_append, setContains]
  · have hq2 : p ≠ q := fun h => hq h.symm
    by_cases hc : setContains s p
    · simp [hc, hq]
    · simp [hc, setContains_append, setContains, hq, hq2]

lemma setContains_insert_ne (s : List String) (p q : String) (h : q ≠ p) :
    setContains (setInsert s p) q = setContains s q := by
  simp [setContains_insert, h]

lemma processLine_malformed (st : LoopState) : processLine st none = (st, []) := rfl

lemma processLines_append (st : LoopState) (ls₁ ls₂ : List (Option Json)) :
    processLines st (ls₁ ++ ls₂) =
      ((processLines (processLines st ls₁).1 ls₂).1,
       (processLines st ls₁).2 ++ (processLines (processLines st ls₁).1 ls₂).2) := by
  induction ls₁ generalizing st with
  | nil => simp [processLines]
  | cons l ls ih => simp [processLines, ih, List.append_assoc]

lemma assistantItemStep_full (full : String) (item : Json) :
    (assistantItemStep full item).1 = full ++ itemTextStr item := by
  unfold assistantItemStep itemTextStr
  cases ht : item.get "type" >>= Json.as_str with
  | none => simp
  | some t =>
    by_cases h1 : t = "text"
    · simp only [h1, if_pos rfl]
      cases htxt : item.get "text" >>= Json.as_str with
      | none => simp
      | some txt => simp
    · by_cases h2 : t = "thinking"
      · simp only [h1, h2, if_neg, if_pos rfl, ite_false]
        cases hth : item.get "thinking" >>= Json.as_str with
        | none => simp [h1]
        | some th => simp [h1]
      · by_cases h3 : t = "tool_use" <;> simp [h1, h2, h3]

lemma processContent_full (content : List Json) :
    ∀ full, (processContent full content).1 = full ++ contentTexts content := by
  induction content with
  | nil => intro full; simp [processContent, contentTexts]
  | cons item rest ih =>
    intro full
    simp [processContent, contentTexts, ih, assistantItemStep_full, String.append_assoc]

lemma resultTextStep_full (st : LoopState) (json : Json)
    (h : (!((json.get "is_error" >>= Json.as_bool)).getD false
          && (json.get "result" >>= Json.as_str).isSome) = false) :
    (resultTextStep st json).full_response = st.full_response := by
  unfold resultTextStep
  cases hr : json.get "result" >>= Json.as_str with
  | none => rfl
  | some r =>
    simp [hr] at h
    simp [h]

lemma resultSessionStep_full (st : LoopState) (json : Json) :
    (resultSessionStep st json).full_response = st.full_response := by
  unfold resultSessionStep
  cases json.get "session_id" >>= Json.as_str <;> rfl


lemma resultUsageStep_full (st : LoopState) (json : Json) :
    (resultUsageStep st json).full_response = st.full_response := by
  unfold resultUsageStep
  split
  · split <;> rfl
  · rfl

lemma resultStatsStep_full (st : LoopState) (json : Json) :
    (resultStatsStep st json).full_response = st.full_response := by
  unfold resultStatsStep
  split
  · split <;> rfl
  · rfl

lemma resultStep_full (st : LoopState) (json : Json)
    (h : (!((json.get "is_error" >>= Json.as_bool)).getD false
          && (json.get "result" >>= Json.as_str).isSome) = false) :
    (resultStep st json).full_response = st.full_response := by
  unfold resultStep
  rw [resultStatsStep_full, resultUsageStep_full, resultSessionStep_full,
      resultTextStep_full st json h]

lemma processLine_full (st : LoopState) (l : Option Json)
    (h : adoptsResult l = false) :
    (processLine st l).1.full_response = st.full_response ++ lineTexts l := by
  cases l with
  | none => simp [processLine, lineTexts]
  | some json =>
    simp only [processLine, lineTexts]
    by_cases h1 : frameType json = "error"
    · have hna : ¬(frameType json = "assistant") := by rw [h1]; decide
      rw [if_pos h1, if_neg hna]
      split
      · simp
      · split <;> simp
    · by_cases h2 : frameType json = "system"
      · have hna : ¬(frameType json = "assistant") := by rw [h2]; decide
        rw [if_neg h1, if_pos h2, if_neg hna]
        split
        · split <;> simp
        · simp
      · by_cases h3 : frameType json = "assistant"
        · rw [if_neg h1, if_neg h2, if_pos h3, if_pos h3]
          cases hm : json.get "message" with
          | none => simp
          | some message =>
            cases hc : message.get "content" >>= Json.as_array with
            | none => simp [hc]
            | some content => simp [hc, processContent_full]
        · by_cases h4 : frameType json = "result"
          · have hh : (!((json.get "is_error" >>= Json.as_bool)).getD false
                && (json.get "result" >>= Json.as_str).isSome) = false := by
              have hd : decide (frameType json = "result") = true := by simp [h4]
              simp only [adoptsResult] at h
              rw [hd, Bool.true_and] at h
              exact h
            rw [if_neg h1, if_neg h2, if_neg h3, if_pos h4, if_neg h3]
            simp [resultStep_full st json hh]
          · rw [if_neg h1, if_neg h2, if_neg h3, if_neg h4, if_neg h3]
            simp

lemma processLines_full (st : LoopState) (ls : List (Option Json))
    (h : ∀ l ∈ ls, adoptsResult l = false) :
    (processLines st ls).1.full_response = st.full_response ++ concatTexts ls := by
  induction ls generalizing st with
  | nil => simp [processLines, concatTexts]
  | cons l ls ih =>
    have hl : adoptsResult l = false := h l (List.mem_cons_self l ls)
    have hrest : ∀ x ∈ ls, adoptsResult x = false := fun x hx => h x (List.mem_cons_of_mem l hx)
    simp only [processLines, concatTexts]
    rw [ih (processLine st l).1 hrest, processLine_full st l hl, String.append_assoc]

/-- Claim C1 (corrected), counterexample: the claim says the aggregated
response text always equals the concatenation of the `text` content items of
all `assistant` frames; but a stream consisting of one non-error `result`
frame with result text `"foo"` yields aggregate `"foo"` while the assistant
text concatenation is empty, because lib.rs 348-349 adopts the result text
when the aggregate is still empty. -/
theorem stream_aggregate_cex :
    (processLines initState [some resultFooFrame]).1.full_response
      ≠ concatTexts [some resultFooFrame] := by decide

/-- Claim C1 (amended): during one assistant turn the response events are
emitted in exactly the order the source lines were read (splitting the stream
at any point splits the event list at the matching point), malformed lines
are skipped without effect, and the aggregated response text equals the
concatenation, in stream order, of the `text` content items of all
`assistant` frames, provided no non-error `result` frame carrying a `result`
string occurs in the stream (such a frame instead installs its result text as
the aggregate when the aggregate is empty at that point). -/
theorem stream_event_order_and_aggregate (st : LoopState) (ls ls₂ : List (Option Json)) :
    (processLines st (ls ++ ls₂)).2
        = (processLines st ls).2 ++ (processLines (processLines st ls).1 ls₂).2
    ∧ processLines st (none :: ls) = processLines st ls
    ∧ ((∀ l ∈ ls, adoptsResult l = false) →
        (processLines st ls).1.full_response = st.full_response ++ concatTexts ls) :=
  ⟨(processLines_append st ls ls₂).symm ▸ rfl,
   by simp [processLines, processLine],
   fun h => processLines_full st ls h⟩

/-- Witness for C1's amended theorem at a concrete one-frame stream. -/
theorem stream_event_order_and_aggregate_witness :
    (processLines initState [some hiAssistantFrame]).1.full_response
      = initState.full_response ++ concatTexts [some hiAssistantFrame] :=
  (stream_event_order_and_aggregate initState [some hiAssistantFrame] []).2.2 (by decide)

/-- Claim C2 (confirmed): turn resolution order — on failure exit the error is
the pending stream error if any, else the stderr capture if non-empty, else a
generic status message; on success exit a pending stream error still fails the
turn; otherwise the turn succeeds, emits one terminal event whose token count
is omitted when zero, and returns the trimmed aggregate and the session id.
A stream containing a `result` frame with `is_error = true` and text `"boom"`
(and nothing overriding it) fails with `"boom"` regardless of exit status. -/
theorem turn_resolution_order (lines : List (Option Json)) (b : Bool) (sstr serr : String) :
    (b = false →
       resolveTurn b sstr serr (processLines initState lines).1
         = Except.error
             (match (processLines initState lines).1.error_message with
              | some err => err
              | none =>
                if !serr.isEmpty then "Claude error: " ++ serr
                else "Claude exited with status: " ++ sstr))
    ∧ (∀ e, b = true → (processLines initState lines).1.error_message = some e →
         resolveTurn b sstr serr (processLines initState lines).1 = Except.error e)
    ∧ (b = true → (processLines initState lines).1.error_message = none →
         resolveTurn b sstr serr (processLines initState lines).1
           = Except.ok
               ([{ content := "", is_complete := true, thinking := none,
                   tokens_used :=
                     if (processLines initState lines).1.total_tokens > 0
                     then some (processLines initState lines).1.total_tokens else none }],
                { response := (processLines initState lines).1.full_response.trim,
                  session_id := (processLines initState lines).1.result_session_id }))
    ∧ resolveTurn b sstr serr (processLines initState [some boomResultFrame]).1
        = Except.error "boom" := by
  refine ⟨?_, ?_, ?_, ?_⟩
  · intro hb; subst hb; simp [resolveTurn]
  · intro e hb he; subst hb; simp [resolveTurn, he]
  · intro hb he; subst hb; simp [resolveTurn, he]
  · have hboom : (processLines initState [some boomResultFrame]).1
        = { full_response := "", total_tokens := 0, result_session_id := none,
            error_message := some "boom" } := by decide
    rw [hboom]
    cases b <;> simp [resolveTurn]

/-- Witness for C2 at an empty stream with a failure exit status. -/
theorem turn_resolution_order_witness :
    resolveTurn false "exit status: 1" "" (processLines initState []).1
      = Except.error "Claude exited with status: exit status: 1" := by
  have h := (turn_resolution_order [] false "exit status: 1" "").1 rfl
  simpa [processLines, initState] using h

/-- Claim C3 (corrected), counterexample: the claim says the temp MCP config
file never survives the turn; but the `?` early returns at lib.rs 269 (stdout
read error) and lib.rs 381 (child-wait error) skip the `remove_file` at
lib.rs 391, so a turn that wrote the file and then hits either error keeps
the file on disk. -/
theorem temp_config_cleanup_cex :
    tempRemains { lines := [], read_error := some "stdout read failed",
                  wait_result := Except.ok true, status_str := "", stderr_output := "",
                  temp_written := true } = true
    ∧ tempRemains { lines := [], read_error := none,
                    wait_result := Except.error "wait failed", status_str := "",
                    stderr_output := "", temp_written := true } = true :=
  ⟨rfl, rfl⟩

/-- Claim C3 (amended): on every turn in which the stdout loop reaches
end-of-stream without a read error and the child-status wait returns without
error, a written temp MCP config file is removed before the turn returns —
on the success path and on all three resolution failure paths alike; only the
two early-return error paths (stdout read error, child-wait error) skip the
cleanup. -/
theorem temp_config_cleanup (inp : TurnInput) (b : Bool)
    (hr : inp.read_error = none) (hw : inp.wait_result = Except.ok b) :
    tempRemains inp = false := by
  unfold tempRemains send_to_claude_run
  rw [hr, hw]
  simp

/-- Witness for C3's amended theorem at a concrete turn input. -/
theorem temp_config_cleanup_witness :
    tempRemains { lines := [], read_error := none, wait_result := Except.ok true,
                  status_str := "", stderr_output := "", temp_written := true } = false :=
  temp_config_cleanup _ true rfl rfl

/-- Claim C4 (confirmed): for a given integrations list, a config file is
written iff the generated server map is non-empty or an api-key integration
with a non-empty key fired; the path is the working directory (else the
system temp dir) joined with `.claude-quest-mcp-<conversationId>.json`; the
path is passed right after a `--mcp-config` flag; and the example input
`[{type:"mcp", id:"x", command:"foo", args:["a"]}]` serializes to
`{"mcpServers":{"x":{"command":"foo","args":["a"]}}}`. -/
theorem mcp_config_generation (ints : List IntegrationConfig) (wd : Option String)
    (tmp cid : String) :
    ((mcp_config_decision (some ints) wd tmp cid).isSome
        = (!(collect_mcp_servers ints).isEmpty || has_api_key_integrations ints))
    ∧ (∀ p d, mcp_config_decision (some ints) wd tmp cid = some (p, d) →
         p = (wd.getD tmp) ++ "/.claude-quest-mcp-" ++ cid ++ ".json"
         ∧ d = mcp_config_json (collect_mcp_servers ints))
    ∧ (∀ sid sp msg q, ∃ pre post,
         build_claude_args sid sp (some q) msg = pre ++ ["--mcp-config", q] ++ post)
    ∧ mcp_config_json (collect_mcp_servers [exampleMcpIntegration])
        = Json.obj [("mcpServers",
            Json.obj [("x", Json.obj [("command", Json.str "foo"),
                                      ("args", Json.arr [Json.str "a"])])])] := by
  refine ⟨?_, ?_, ?_, rfl⟩
  · simp only [mcp_config_decision]
    split <;> simp_all
  · intro p d hd
    revert hd
    simp only [mcp_config_decision]
    split
    · intro hd
      have h2 := Option.some.inj hd
      rw [Prod.mk.injEq] at h2
      exact ⟨h2.1.symm, h2.2.symm⟩
    · intro hd; simp at hd
  · intro sid sp msg q
    refine ⟨(match sid with
             | some s => ["--resume", s]
             | none => []) ++
            (match sp with
             | some s => ["--system-prompt", s]
             | none => []),
            ["--print", "--output-format", "stream-json", "--verbose",
             "--permission-mode", "bypassPermissions", "--settings", settingsJson, msg], ?_⟩
    simp [build_claude_args, List.append_assoc]

/-- Witness for C4 at the example integration list with a working directory. -/
theorem mcp_config_generation_witness :
    "/w" ++ "/.claude-quest-mcp-" ++ "c1" ++ ".json"
        = ((some "/w").getD "/tmp") ++ "/.claude-quest-mcp-" ++ "c1" ++ ".json"
    ∧ mcp_config_json (collect_mcp_servers [exampleMcpIntegration])
        = mcp_config_json (collect_mcp_servers [exampleMcpIntegration]) :=
  ⟨((mcp_config_generation [exampleMcpIntegration] (some "/w") "/tmp" "c1").2.1
      ("/w" ++ "/.claude-quest-mcp-" ++ "c1" ++ ".json")
      (mcp_config_json (collect_mcp_servers [exampleMcpIntegration])) rfl).1,
   rfl⟩

/-- Claim C5 (confirmed): `kill_shell_process` always returns `Ok(true)`, only
adds the id to the kill-request set, and leaves both process registries and
every other id's kill-set membership unchanged. -/
theorem kill_shell_process_fire_and_forget (pid : String) (st : RegistryState) :
    (kill_shell_process pid st).2 = Except.ok true
    ∧ (kill_shell_process pid st).1.running_processes = st.running_processes
    ∧ (kill_shell_process pid st).1.running_services = st.running_services
    ∧ setContains (kill_shell_process pid st).1.kill_signals pid = true
    ∧ ∀ q, setContains (kill_shell_process pid st).1.kill_signals q
            = (setContains st.kill_signals q || decide (q = pid)) := by
  refine ⟨rfl, rfl, rfl, ?_, ?_⟩
  · simpa [kill_shell_process] using setContains_insert_self st.kill_signals pid
  · intro q
    simpa [kill_shell_process] using setContains_insert st.kill_signals pid q

lemma shell_tick_killed (pid : String) (child_pid : Option Nat) (h : Nat)
    (status : ChildStatus) (w : Except String (String × String × Option Int))
    (st : RegistryState)
    (hk : setContains st.kill_signals pid = true)
    (hh : assocLookup st.running_processes pid = some h) :
    run_shell_command_tick pid child_pid status w st
      = ({ st with kill_signals := setRemove st.kill_signals pid,
                   running_processes := assocErase st.running_processes pid },
         (match child_pid with
          | some p => [KillAction.killpg p]
          | none => []) ++ [KillAction.killChild h],
         some (Except.ok { stdout := "", stderr := "^C", exit_code := 130 })) := by
  unfold run_shell_command_tick
  rw [if_pos hk, hh]

/-- Claim C6 (confirmed): a poll tick of a running shell job with a pending
kill request consumes the request, removes the handle, issues the group
signal (when a pid is available) followed by the direct child kill, and
returns `{stdout:"", stderr:"^C", exitCode:130}`; the id is afterwards absent
from the process registry and the kill set. -/
theorem run_shell_kill_tick (pid : String) (child_pid : Option Nat) (h : Nat)
    (status : ChildStatus) (w : Except String (String × String × Option Int))
    (st : RegistryState)
    (hk : setContains st.kill_signals pid = true)
    (hh : assocLookup st.running_processes pid = some h) :
    (run_shell_command_tick pid child_pid status w st).2.2
        = some (Except.ok { stdout := "", stderr := "^C", exit_code := 130 })
    ∧ assocLookup (run_shell_command_tick pid child_pid status w st).1.running_processes pid = none
    ∧ setContains (run_shell_command_tick pid child_pid status w st).1.kill_signals pid = false
    ∧ (run_shell_command_tick pid child_pid status w st).2.1
        = (match child_pid with
           | some p => [KillAction.killpg p]
           | none => []) ++ [KillAction.killChild h] := by
  rw [shell_tick_killed pid child_pid h status w st hk hh]
  exact ⟨rfl, assocLookup_erase_self st.running_processes pid,
         setContains_remove_self st.kill_signals pid, rfl⟩

/-- Witness for C6 at a concrete registry state. -/
theorem run_shell_kill_tick_witness :
    (run_shell_command_tick "p" (some 9) ChildStatus.running
        (Except.ok ("", "", some 0)) staleState).2.2
      = some (Except.ok { stdout := "", stderr := "^C", exit_code := 130 }) :=
  (run_shell_kill_tick "p" (some 9) 5 ChildStatus.running (Except.ok ("", "", some 0))
      staleState (by decide) (by decide)).1

/-- Claim C7 (confirmed): starting a service under an id already registered
fails with `"Service is already running"` without reaching the spawn, leaves
the registry unchanged, and `get_running_services` still lists exactly one
entry for that id. -/
theorem start_service_duplicate (sid : String) (hnd : Nat) (st : RegistryState)
    (h1 : (get_running_services st).count sid = 1) :
    start_service sid hnd st = (st, Except.error "Service is already running", false)
    ∧ (get_running_services (start_service sid hnd st).1).count sid = 1 := by
  have hmem : sid ∈ st.running_services.map Prod.fst := by
    have hpos : 0 < (get_running_services st).count sid := by rw [h1]; norm_num
    exact List.count_pos_iff.mp hpos
  have hsome := assocLookup_isSome_of_mem st.running_services sid hmem
  have heq : start_service sid hnd st = (st, Except.error "Service is already running", false) := by
    unfold start_service
    rw [if_pos hsome]
  exact ⟨heq, by rw [heq]; exact h1⟩

/-- Witness for C7 at a concrete one-service registry. -/
theorem start_service_duplicate_witness :
    start_service "s" 2 { running_processes := [], running_services := [("s", 1)], kill_signals := [] }
      = ({ running_processes := [], running_services := [("s", 1)], kill_signals := [] },
         Except.error "Service is already running", false) :=
  (start_service_duplicate "s" 2
      { running_processes := [], running_services := [("s", 1)], kill_signals := [] }
      (by decide)).1

lemma service_wait_tick_events_len (sid : String) (status : ChildStatus) (st : RegistryState) :
    (service_wait_tick sid status st).2.1.length ≤ 1 := by
  unfold service_wait_tick
  split
  · split <;> simp
  · simp

lemma service_wait_tick_cont_events (sid : String) (status : ChildStatus) (st : RegistryState)
    (h : (service_wait_tick sid status st).2.2 = true) :
    (service_wait_tick sid status st).2.1 = [] := by
  cases hl : assocLookup st.running_services sid with
  | none => simp [service_wait_tick, hl]
  | some v =>
    cases status with
    | running => simp [service_wait_tick, hl]
    | exited c => simp [service_wait_tick, hl] at h
    | pollErr e => simp [service_wait_tick, hl]

lemma service_wait_tick_exited (sid : String) (st : RegistryState) (code : Option Int)
    (hs : (assocLookup st.running_services sid).isSome = true) :
    service_wait_tick sid (ChildStatus.exited code) st
      = ({ st with running_services := assocErase st.running_services sid },
         [{ service_id := sid, output := "", is_stderr := false,
            is_complete := true, exit_code := code }], false) := by
  unfold service_wait_tick
  cases hl : assocLookup st.running_services sid with
  | none => rw [hl] at hs; simp at hs
  | some v => rfl

lemma service_wait_tick_pollErr (sid e : String) (st : RegistryState)
    (hs : (assocLookup st.running_services sid).isSome = true) :
    service_wait_tick sid (ChildStatus.pollErr e) st
      = ({ st with running_services := assocErase st.running_services sid }, [], false) := by
  unfold service_wait_tick
  cases hl : assocLookup st.running_services sid with
  | none => rw [hl] at hs; simp at hs
  | some v => rfl

lemma service_wait_tick_missing (sid : String) (status : ChildStatus) (st : RegistryState)
    (hn : assocLookup st.running_services sid = none) :
    service_wait_tick sid status st = (st, [], false) := by
  unfold service_wait_tick
  rw [hn]


lemma service_wait_loop_terminal_count (sid : String) (statuses : List ChildStatus)
    (st : RegistryState) :
    (service_wait_loop sid statuses st).2.countP (fun ev => ev.is_complete) ≤ 1 := by
  induction statuses generalizing st with
  | nil => simp [service_wait_loop]
  | cons s rest ih =>
    simp only [service_wait_loop]
    by_cases hc : (service_wait_tick sid s st).2.2 = true
    · rw [if_pos hc]
      simp [service_wait_tick_cont_events sid s st hc]
      exact ih _
    · rw [if_neg hc]
      exact le_trans (List.countP_le_length _) (service_wait_tick_events_len sid s st)

lemma service_wait_tick_running (sid : String) (st : RegistryState)
    (hs : (assocLookup st.running_services sid).isSome = true) :
    service_wait_tick sid ChildStatus.running st = (st, [], true) := by
  unfold service_wait_tick
  cases hl : assocLookup st.running_services sid with
  | none => rw [hl] at hs; simp at hs
  | some v => rfl

lemma service_wait_loop_exit (sid : String) (st : RegistryState) (code : Option Int) (n : Nat)
    (hs : (assocLookup st.running_services sid).isSome = true) :
    service_wait_loop sid (List.replicate n ChildStatus.running ++ [ChildStatus.exited code]) st
      = ({ st with running_services := assocErase st.running_services sid },
         [{ service_id := sid, output := "", is_stderr := false,
            is_complete := true, exit_code := code }]) := by
  induction n with
  | zero =>
    simp only [List.replicate, List.nil_append, service_wait_loop]
    rw [service_wait_tick_exited sid st code hs]
    simp
  | succ n ih =>
    rw [List.replicate_succ, List.cons_append]
    simp only [service_wait_loop]
    rw [service_wait_tick_running sid st hs]
    simpa using ih

/-- Claim C8 (corrected), counterexample: the claim says a terminal event is
emitted whenever the watcher finds the entry still registered, including when
polling returns an error; but the `Err(_)` arm at lib.rs 640-643 removes the
entry and breaks without emitting, so a registered service whose poll errors
produces no event. -/
theorem service_terminal_event_cex :
    (assocLookup svcState7.running_services "svc").isSome = true
    ∧ (service_wait_tick "svc" (ChildStatus.pollErr "poll failed") svcState7).2.1 = [] := by
  decide

/-- Claim C8 (amended): when the watcher finds the entry registered and
`try_wait` reports exit, it removes the entry and emits exactly one terminal
event carrying the exit code; when `try_wait` returns an error it removes the
entry and emits nothing; when the entry is already missing it emits nothing
and leaves the registry unchanged; a whole watcher run emits at most one
terminal event, and exactly one when the process exits on its own after any
number of still-running polls. -/
theorem service_terminal_event_amended (sid e : String) (st : RegistryState)
    (code : Option Int) (status : ChildStatus) (statuses : List ChildStatus) (n : Nat) :
    ((assocLookup st.running_services sid).isSome = true →
       service_wait_tick sid (ChildStatus.exited code) st
         = ({ st with running_services := assocErase st.running_services sid },
            [{ service_id := sid, output := "", is_stderr := false,
               is_complete := true, exit_code := code }], false))
    ∧ ((assocLookup st.running_services sid).isSome = true →
       service_wait_tick sid (ChildStatus.pollErr e) st
         = ({ st with running_services := assocErase st.running_services sid }, [], false))
    ∧ (assocLookup st.running_services sid = none →
       service_wait_tick sid status st = (st, [], false))
    ∧ (service_wait_loop sid statuses st).2.countP (fun ev => ev.is_complete) ≤ 1
    ∧ ((assocLookup st.running_services sid).isSome = true →
       service_wait_loop sid (List.replicate n ChildStatus.running ++ [ChildStatus.exited code]) st
         = ({ st with running_services := assocErase st.running_services sid },
            [{ service_id := sid, output := "", is_stderr := false,
               is_complete := true, exit_code := code }])) :=
  ⟨service_wait_tick_exited sid st code,
   service_wait_tick_pollErr sid e st,
   service_wait_tick_missing sid status st,
   service_wait_loop_terminal_count sid statuses st,
   service_wait_loop_exit sid st code n⟩

/-- Witness for C8's amended theorem: a service that exits on its own emits
its single terminal event. -/
theorem service_terminal_event_amended_witness :
    service_wait_loop "svc"
        (List.replicate 0 ChildStatus.running ++ [ChildStatus.exited (some 0)]) svcState7
      = ({ svcState7 with running_services := assocErase svcState7.running_services "svc" },
         [{ service_id := "svc", output := "", is_stderr := false,
            is_complete := true, exit_code := some 0 }]) :=
  (service_terminal_event_amended "svc" "e" svcState7 (some 0) ChildStatus.running [] 0).2.2.2.2
    (by decide)

/-- Claim C9 (corrected), counterexample: the claim says a registry lock is
never held across an await performing child-process I/O; but in `stop_service`
the `services` guard lives to the end of the function and `child.kill().await`
runs inside it, and in `run_shell_command` both the kill branch
(`child.kill().await` under both guards) and the completion branch
(`wait_with_output().await` under the processes guard) await under a lock. -/
theorem lock_discipline_cex :
    awaitsUnderLock [] (stop_service_trace true) = true
    ∧ awaitsUnderLock [] (run_shell_command_tick_trace ShellTickBranch.killSignalHandle) = true
    ∧ awaitsUnderLock [] (run_shell_command_tick_trace ShellTickBranch.exitedBranch) = true := by
  decide

/-- Claim C9 (amended): the registry locks are held only for map access — with
no child-process-I/O await inside the locked section — in `kill_shell_process`,
`get_running_services`, both branches of `start_service`'s registration, every
branch of the service exit watcher, the not-found branch of `stop_service`,
and the no-handle/still-running/poll-error/handle-missing branches of
`run_shell_command`'s poll loop; but the found branch of `stop_service` and
the kill-with-handle and completion branches of `run_shell_command` do hold a
registry lock across a child-process-I/O await. -/
theorem lock_discipline_amended :
    awaitsUnderLock [] kill_shell_process_trace = false
    ∧ awaitsUnderLock [] get_running_services_trace = false
    ∧ awaitsUnderLock [] (start_service_trace true) = false
    ∧ awaitsUnderLock [] (start_service_trace false) = false
    ∧ awaitsUnderLock [] (service_wait_tick_trace WatcherBranch.exitedW) = false
    ∧ awaitsUnderLock [] (service_wait_tick_trace WatcherBranch.runningW) = false
    ∧ awaitsUnderLock [] (service_wait_tick_trace WatcherBranch.errW) = false
    ∧ awaitsUnderLock [] (service_wait_tick_trace WatcherBranch.missingW) = false
    ∧ awaitsUnderLock [] (stop_service_trace false) = false
    ∧ awaitsUnderLock [] (run_shell_command_tick_trace ShellTickBranch.killSignalNoHandle) = false
    ∧ awaitsUnderLock [] (run_shell_command_tick_trace ShellTickBranch.stillRunning) = false
    ∧ awaitsUnderLock [] (run_shell_command_tick_trace ShellTickBranch.pollErrBranch) = false
    ∧ awaitsUnderLock [] (run_shell_command_tick_trace ShellTickBranch.handleMissing) = false
    ∧ awaitsUnderLock [] (stop_service_trace true) = true
    ∧ awaitsUnderLock [] (run_shell_command_tick_trace ShellTickBranch.killSignalHandle) = true
    ∧ awaitsUnderLock [] (run_shell_command_tick_trace ShellTickBranch.exitedBranch) = true := by
  decide

lemma shell_tick_snd_congr (pid : String) (child_pid : Option Nat)
    (status : ChildStatus) (w : Except String (String × String × Option Int))
    (st st2 : RegistryState)
    (hks : setContains st2.kill_signals pid = setContains st.kill_signals pid)
    (hrp : st2.running_processes = st.running_processes) :
    (run_shell_command_tick pid child_pid status w st2).2
      = (run_shell_command_tick pid child_pid status w st).2 := by
  unfold run_shell_command_tick
  rw [hks, hrp]
  by_cases hq : setContains st.kill_signals pid = true
  · rw [if_pos hq, if_pos hq]
    cases assocLookup st.running_processes pid <;> rfl
  · rw [if_neg hq, if_neg hq]
    cases assocLookup st.running_processes pid with
    | none => rfl
    | some v =>
      cases status with
      | running => rfl
      | exited c => cases w <;> rfl
      | pollErr e => rfl

/-- Claim C10 (corrected), counterexample: the claim says a stale kill-request
entry is consumed and ignored with no observable side effect on any
subsequent job; but the next job started under the same id consumes the stale
entry on its first poll tick and is killed by it — it returns the synthetic
`{stdout:"", stderr:"^C", exitCode:130}` result and its handle is removed. -/
theorem stale_kill_request_cex :
    (run_shell_command_tick "p" (some 9) ChildStatus.running
        (Except.ok ("", "", some 0)) staleState).2.2
      = some (Except.ok { stdout := "", stderr := "^C", exit_code := 130 })
    ∧ assocLookup (run_shell_command_tick "p" (some 9) ChildStatus.running
        (Except.ok ("", "", some 0)) staleState).1.running_processes "p" = none :=
  ⟨rfl, rfl⟩

/-- Claim C10 (amended): a stale kill request for id `p` is consumed by the
first poll tick of the next job registered under `p` and kills that job
(synthetic `^C`/130 result, request removed from the set), or is never
consumed; a job under any other id is unaffected — its tick produces the same
kill actions and the same result whether or not the stale entry is present. -/
theorem stale_kill_request_amended (p q : String) (hpq : q ≠ p) (child_pid : Option Nat)
    (h : Nat) (status : ChildStatus) (w : Except String (String × String × Option Int))
    (st : RegistryState) :
    (setContains st.kill_signals p = true →
       assocLookup st.running_processes p = some h →
       (run_shell_command_tick p child_pid status w st).2.2
           = some (Except.ok { stdout := "", stderr := "^C", exit_code := 130 })
       ∧ setContains (run_shell_command_tick p child_pid status w st).1.kill_signals p = false)
    ∧ (run_shell_command_tick q child_pid status w
         { st with kill_signals := setInsert st.kill_signals p }).2
        = (run_shell_command_tick q child_pid status w st).2 := by
  constructor
  · intro hk hh
    rw [shell_tick_killed p child_pid h status w st hk hh]
    exact ⟨rfl, setContains_remove_self st.kill_signals p⟩
  · exact shell_tick_snd_congr q child_pid status w st
      { st with kill_signals := setInsert st.kill_signals p }
      (setContains_insert_ne st.kill_signals p q hpq) rfl

/-- Witness for C10's amended theorem at a concrete stale state. -/
theorem stale_kill_request_amended_witness :
    setContains (run_shell_command_tick "p" (some 9) ChildStatus.running
        (Except.ok ("", "", some 0)) staleState).1.kill_signals "p" = false :=
  ((stale_kill_request_amended "p" "q" (by decide) (some 9) 5 ChildStatus.running
      (Except.ok ("", "", some 0)) staleState).1 (by decide) (by decide)).2
